import Mathlib

/-!
Verification of the MDS message processor core of the agent
(src/agent/message/processor/processor.go).

The embedding below renders the package constants, the stop-policy circuit
breaker, the reply-sending path (processSendReply), the MDS service
construction (newMdsService) and the processor construction (NewProcessor)
as executable Lean definitions.  External collaborators (the JSON
marshaller, the transport SendReply call, the platform identity lookup)
are passed in as function parameters, mirroring how the Go code calls into
other packages.  Components whose implementation lives outside this
package and outside src (sdkutil.StopPolicy, sdkutil.HandleAwsError, the
task-pool shutdown, the scheduler supervision, the dispatcher topic
classification) are modelled from the specification; each such definition
says so in its doc comment.

Time is modelled in milliseconds over Nat, both for durations and for
instants, matching the millisecond granularity of every constant involved.
-/

namespace MessageProcessor

/-! ## Time units (milliseconds) -/

def millisPerSecond : Nat := 1000

def millisPerMinute : Nat := 60000

/-! ## Constants from processor.go -/

/-- TopicPrefix is the type of the topic-classification constants, a string. -/
abbrev TopicPrefix := String

/-- Topic marker for a send command MDS message. -/
def SendCommandTopicPrefix : TopicPrefix := "aws.ssm.sendCommand."

/-- Topic marker for a cancel command MDS message. -/
def CancelCommandTopicPrefix : TopicPrefix := "aws.ssm.cancelCommand."

/-- Size of the cancel-command worker pool. -/
def CancelWorkersLimit : Nat := 3

/-- The core plugin name. -/
def name : String := "MessageProcessor"

/-- Frequency, in minutes, at which to resume polling for messages if the
current thread dies. -/
def pollMessageFrequencyMinutes : Nat := 15

/-- The poll resume cadence expressed in milliseconds. -/
def pollMessageFrequencyMillis : Nat := pollMessageFrequencyMinutes * millisPerMinute

/-- Time before the processor is shut down during a hardstop: 4 seconds. -/
def hardStopTimeout : Nat := 4 * millisPerSecond

/-- Default stop-policy error threshold: after 10 consecutive errors the
plugin stops for 15 minutes. -/
def stopPolicyErrorThreshold : Nat := 10

/-! ## StopPolicy (circuit breaker) -/

/-- Modelled from the spec: the window during which the stop policy stays
unhealthy once the consecutive-error threshold is reached (15 minutes);
the sdkutil implementation is not under src. -/
def stopPolicyWindowMillis : Nat := 15 * millisPerMinute

/-- Modelled from the spec: sdkutil.StopPolicy state, which is not under
src.  A consecutive-error counter and an optional healthy-again expiry
instant, scoped per named consumer. -/
structure StopPolicy where
  name : String
  threshold : Nat
  errorCount : Nat
  unhealthyUntil : Option Nat
deriving Repr, DecidableEq

/-- Modelled from the spec: sdkutil.NewStopPolicy constructs a healthy
policy with a zero counter for the given consumer name and threshold. -/
def NewStopPolicy (n : String) (threshold : Nat) : StopPolicy :=
  { name := n, threshold := threshold, errorCount := 0, unhealthyUntil := none }

/-- Modelled from the spec: once now passes the window end, the policy
auto-resets to healthy with the counter zeroed, without an explicit call. -/
def StopPolicy.expireWindow (p : StopPolicy) (now : Nat) : StopPolicy :=
  match p.unhealthyUntil with
  | none => p
  | some t => if t ≤ now then { p with errorCount := 0, unhealthyUntil := none } else p

/-- Modelled from the spec: RecordSuccess resets the consecutive-error
counter and clears any open expiry window. -/
def StopPolicy.RecordSuccess (p : StopPolicy) : StopPolicy :=
  { p with errorCount := 0, unhealthyUntil := none }

/-- Modelled from the spec: RecordFailure increments the counter; if the
counter reaches the configured threshold, the policy becomes unhealthy
until now plus the window. -/
def StopPolicy.RecordFailure (p : StopPolicy) (now : Nat) : StopPolicy :=
  let q := p.expireWindow now
  let c := q.errorCount + 1
  if q.threshold ≤ c then
    { q with errorCount := c, unhealthyUntil := some (now + stopPolicyWindowMillis) }
  else
    { q with errorCount := c }

/-- Modelled from the spec: IsHealthy reports false exactly while an
unhealthy window is open at the current instant. -/
def StopPolicy.IsHealthy (p : StopPolicy) (now : Nat) : Bool :=
  (p.expireWindow now).unhealthyUntil.isNone

/-- The stop policy used by the processor: stop after 10 consecutive
errors (newStopPolicy in processor.go). -/
def newStopPolicy : StopPolicy :=
  NewStopPolicy name stopPolicyErrorThreshold

/-! ## Reply payloads and processSendReply -/

/-- A reply payload; built by the external parser collaborator, treated as
an opaque serializable value by the processor. -/
structure SendReplyPayload where
  raw : String
deriving Repr, DecidableEq

/-- A record of what one processSendReply call did to the stop policy. -/
inductive StopPolicyEvent where
  | recordFailure
  | recordSuccess
deriving Repr, DecidableEq, BEq

/-- Observable effects of one processSendReply call: whether the marshal
error was logged, every (messageID, payload) pair passed to the transport
SendReply, the stop-policy events issued, and the resulting policy. -/
structure SendReplyTrace where
  loggedMarshalError : Bool
  sendReplyCalls : List (String × String)
  stopPolicyEvents : List StopPolicyEvent
  policy : StopPolicy
deriving Repr, DecidableEq

/-- Modelled from the spec: sdkutil.HandleAwsError is not under src; on a
non-nil transport error it logs and records a failure into the stop
policy. -/
def HandleAwsError (p : StopPolicy) (now : Nat) : StopPolicy :=
  p.RecordFailure now

/-- processSendReply from processor.go.  json.Marshal is modelled as a
function returning the payload string on success and none on failure; on
failure Go leaves payloadB nil, so the string sent is "" (string(nil)).
The Go code logs a marshal error but does not return, so SendReply is
called unconditionally; a transport error is routed to HandleAwsError. -/
def processSendReply (messageID : String)
    (jsonMarshal : SendReplyPayload → Option String)
    (sendReply : String → String → Option String)
    (payloadDoc : SendReplyPayload) (stopPolicy : StopPolicy) (now : Nat) :
    SendReplyTrace :=
  let payloadB := jsonMarshal payloadDoc
  let payload := payloadB.getD ""
  let sendErr := sendReply messageID payload
  { loggedMarshalError := payloadB.isNone
    sendReplyCalls := [(messageID, payload)]
    stopPolicyEvents := if sendErr.isSome then [StopPolicyEvent.recordFailure] else []
    policy := if sendErr.isSome then HandleAwsError stopPolicy now else stopPolicy }

/-! ## Configuration and collaborator values -/

/-- The Os section of the agent configuration. -/
structure OsConfig where
  lang : String
  name : String
  version : String
deriving Repr, DecidableEq

/-- The Agent section of the agent configuration. -/
structure AgentSectionConfig where
  name : String
  version : String
  region : String
  orchestrationRootDir : String
deriving Repr, DecidableEq

/-- The Mds section of the agent configuration. -/
structure MdsConfig where
  commandWorkersLimit : Nat
  stopTimeoutMillis : Nat
  endpoint : String
deriving Repr, DecidableEq

/-- appconfig.SsmagentConfig, restricted to the fields processor.go reads. -/
structure SsmagentConfig where
  os : OsConfig
  agent : AgentSectionConfig
  mds : MdsConfig
deriving Repr, DecidableEq

/-- contracts.AgentInfo. -/
structure AgentInfo where
  lang : String
  name : String
  version : String
  os : String
  osVersion : String
deriving Repr, DecidableEq

/-- contracts.AgentConfiguration. -/
structure AgentConfiguration where
  agentInfo : AgentInfo
  instanceID : String
deriving Repr, DecidableEq

/-- The MDS service handle produced by service.NewService: region,
endpoint and the connection timeout it was given. -/
structure MdsService where
  region : String
  endpoint : String
  connectionTimeoutMillis : Nat
deriving Repr, DecidableEq

/-- newMdsService from processor.go: the connection timeout is
config.Mds.StopTimeoutMillis milliseconds. -/
def newMdsService (config : SsmagentConfig) : MdsService :=
  { region := config.agent.region
    endpoint := config.mds.endpoint
    connectionTimeoutMillis := config.mds.stopTimeoutMillis }

/-- A task pool as constructed by task.NewPool: its worker limit and the
cancel wait duration it was given (the pool internals are an external
collaborator). -/
structure TaskPool where
  maxWorkers : Nat
  cancelWaitDurationMillis : Nat
deriving Repr, DecidableEq

/-- task.NewPool, restricted to the parameters the processor passes. -/
def NewPool (workersLimit : Nat) (cancelWaitDurationMillis : Nat) : TaskPool :=
  { maxWorkers := workersLimit, cancelWaitDurationMillis := cancelWaitDurationMillis }

/-! ## Processor construction -/

/-- The environment captured by the sendResponse and sendDocLevelResponse
closures in NewProcessor: the MDS service and the stop policy they hand to
processSendReply. -/
structure ReplyClosure where
  mdsService : MdsService
  stopPolicy : StopPolicy
deriving Repr, DecidableEq

/-- Invoking a reply closure runs processSendReply against the captured
service and stop policy, exactly as the closures in NewProcessor do. -/
def ReplyClosure.send (c : ReplyClosure) (messageID : String)
    (jsonMarshal : SendReplyPayload → Option String)
    (sendReply : String → String → Option String)
    (payloadDoc : SendReplyPayload) (now : Nat) : SendReplyTrace :=
  processSendReply messageID jsonMarshal sendReply payloadDoc c.stopPolicy now

/-- path.Join as used for the orchestration root directory. -/
def pathJoin (elems : List String) : String :=
  String.intercalate "/" elems

/-- Modelled from the spec: appconfig.DefaultDataStorePath lives in a
collaborator package not under src; its value is irrelevant to every
claim, so a symbolic value stands in for it. -/
def DefaultDataStorePath : String := "appconfig.DefaultDataStorePath"

/-- Modelled from the spec: appconfig.DefaultCommandRootDirName lives in a
collaborator package not under src; symbolic value, irrelevant to the
claims. -/
def DefaultCommandRootDirName : String := "appconfig.DefaultCommandRootDirName"

/-- The processor record, restricted to the fields NewProcessor fills with
values of this package (fields holding bare external collaborators, such
as the plugin runner and the bookkeeping closure, are outside the
embedding). -/
structure Processor where
  config : AgentConfiguration
  service : MdsService
  sendCommandPool : TaskPool
  cancelCommandPool : TaskPool
  sendResponse : ReplyClosure
  sendDocLevelResponse : ReplyClosure
  orchestrationRootDir : String
  processorStopPolicy : StopPolicy
deriving Repr, DecidableEq

/-- NewProcessor from processor.go.  platform.InstanceID is modelled by
the pair (instanceID, instanceIDErr); the code returns nil exactly when
the instance ID is the empty string, regardless of the error value. -/
def NewProcessor (instanceID : String) (instanceIDErr : Option String)
    (config : SsmagentConfig) : Option Processor :=
  if instanceID = "" then none
  else
    let mdsService := newMdsService config
    let agentInfo : AgentInfo :=
      { lang := config.os.lang
        name := config.agent.name
        version := config.agent.version
        os := config.os.name
        osVersion := config.os.version }
    let agentConfig : AgentConfiguration :=
      { agentInfo := agentInfo, instanceID := instanceID }
    let cancelWaitDuration : Nat := 10000
    let sendCommandTaskPool := NewPool config.mds.commandWorkersLimit cancelWaitDuration
    let cancelCommandTaskPool := NewPool CancelWorkersLimit cancelWaitDuration
    let orchestrationRootDir :=
      pathJoin [DefaultDataStorePath, instanceID, DefaultCommandRootDirName,
        config.agent.orchestrationRootDir]
    let processorStopPolicy := newStopPolicy
    some
      { config := agentConfig
        service := mdsService
        sendCommandPool := sendCommandTaskPool
        cancelCommandPool := cancelCommandTaskPool
        sendResponse := { mdsService := mdsService, stopPolicy := processorStopPolicy }
        sendDocLevelResponse := { mdsService := mdsService, stopPolicy := processorStopPolicy }
        orchestrationRootDir := orchestrationRootDir
        processorStopPolicy := processorStopPolicy }

/-- Projection used to compare the stop policies captured by the two reply
closures with the processor's own stop policy field. -/
def stopPolicyCaptures (o : Option Processor) :
    Option (StopPolicy × StopPolicy × StopPolicy) :=
  o.map fun p =>
    (p.sendResponse.stopPolicy, p.sendDocLevelResponse.stopPolicy, p.processorStopPolicy)

/-! ## Shutdown (modelled from the spec) -/

/-- Modelled from the spec: ShutdownGracefully of the task pool is not
under src.  Tasks are abstracted by their remaining run time in
milliseconds; the pool waits up to the timeout for a full drain and
abandons every task still running past the deadline.  Returns the elapsed
shutdown time and the abandoned tasks. -/
def ShutdownGracefully (running : List Nat) (timeout : Nat) : Nat × List Nat :=
  let drainTime := running.foldl max 0
  if drainTime ≤ timeout then (drainTime, [])
  else (timeout, running.filter (fun d => decide (timeout < d)))

/-- Modelled from the spec: Stop of the processor is not under src.  Both
pools are shut down in parallel with the fixed hardStopTimeout deadline;
Stop returns once both are drained or force-abandoned, so its elapsed time
is the larger of the two shutdown times and its abandoned set is the union
of the two pools' abandoned tasks. -/
def Stop (sendRunning cancelRunning : List Nat) : Nat × List Nat :=
  (max (ShutdownGracefully sendRunning hardStopTimeout).1
      (ShutdownGracefully cancelRunning hardStopTimeout).1,
    (ShutdownGracefully sendRunning hardStopTimeout).2
      ++ (ShutdownGracefully cancelRunning hardStopTimeout).2)

/-! ## Poller supervision (modelled from the spec) -/

/-- The poller thread is either running or dead since some instant
(minutes). -/
inductive PollerStatus where
  | running
  | dead (since : Nat)
deriving Repr, DecidableEq

/-- Modelled from the spec: the scheduler supervision of the poll job is
not under src.  A dead polling thread is restarted once the resume
interval of pollMessageFrequencyMinutes has elapsed. -/
def superviseStep (s : PollerStatus) (nowMinutes : Nat) : PollerStatus :=
  match s with
  | PollerStatus.running => PollerStatus.running
  | PollerStatus.dead since =>
      if since + pollMessageFrequencyMinutes ≤ nowMinutes then PollerStatus.running
      else PollerStatus.dead since

/-! ## Topic classification (modelled from the spec) -/

/-- Modelled from the spec: the dispatcher classifies a message as a send
command when its topic starts with SendCommandTopicPrefix; the dispatcher
itself is not under src. -/
def isSendCommandTopic (topic : String) : Bool :=
  List.isPrefixOf SendCommandTopicPrefix.data topic.data

/-- Modelled from the spec: the dispatcher classifies a message as a
cancel command when its topic starts with CancelCommandTopicPrefix. -/
def isCancelCommandTopic (topic : String) : Bool :=
  List.isPrefixOf CancelCommandTopicPrefix.data topic.data

/-! ## Concrete sample values for witnesses and counterexamples -/

/-- A sample agent configuration with a command worker limit of 5 and a
20 second MDS stop timeout. -/
def sampleConfig : SsmagentConfig :=
  { os := { lang := "en-US", name := "linux", version := "4.9" }
    agent := { name := "amazon-ssm-agent", version := "1.2.0",
               region := "us-east-1", orchestrationRootDir := "orchestration" }
    mds := { commandWorkersLimit := 5, stopTimeoutMillis := 20000, endpoint := "" } }

/-- A configuration whose MDS stop timeout is exactly 15 minutes
(900000 ms), the poll resume cadence. -/
def cex9Config : SsmagentConfig :=
  { os := { lang := "en-US", name := "linux", version := "4.9" }
    agent := { name := "amazon-ssm-agent", version := "1.2.0",
               region := "us-east-1", orchestrationRootDir := "orchestration" }
    mds := { commandWorkersLimit := 5, stopTimeoutMillis := 900000, endpoint := "" } }

/-- A sample reply payload. -/
def samplePayload : SendReplyPayload := { raw := "sample" }

/-! ## Helper lemmas -/

/-- Below the threshold and with no open window, a RecordFailure call just
increments the counter. -/
theorem recordFailure_of_below (p : StopPolicy) (t : Nat)
    (hu : p.unhealthyUntil = none) (hc : p.errorCount + 1 < p.threshold) :
    p.RecordFailure t = { p with errorCount := p.errorCount + 1 } := by
  simp [StopPolicy.RecordFailure, StopPolicy.expireWindow, hu, Nat.not_le.mpr hc]

/-- Folding RecordFailure over any list of instants, starting from a
healthy state whose counter stays strictly below the threshold, only
accumulates the counter. -/
theorem foldl_recordFailure_below (ts : List Nat) (p : StopPolicy)
    (hu : p.unhealthyUntil = none) (hc : p.errorCount + ts.length < p.threshold) :
    ts.foldl StopPolicy.RecordFailure p
      = { p with errorCount := p.errorCount + ts.length } := by
  induction ts generalizing p with
  | nil => simp
  | cons t ts ih =>
    have hc1 : p.errorCount + 1 < p.threshold := by
      simp only [List.length_cons] at hc
      omega
    have hc2 : p.errorCount + 1 + ts.length < p.threshold := by
      simp only [List.length_cons] at hc
      omega
    have hstep := recordFailure_of_below p t hu hc1
    have hrest := ih { p with errorCount := p.errorCount + 1 } hu hc2
    rw [List.foldl_cons, hstep, hrest]
    simp only [List.length_cons]
    congr 1
    omega

/-! ## Claim theorems -/

/-- C1: contrary to the claim, a failed JSON marshal does not abort the
send: processSendReply logs the marshal failure but, lacking a return,
still calls the transport SendReply, with the empty payload that
string(nil) yields.  This theorem evaluates the embedded code at such a
failing input. -/
theorem processSendReply_marshalFailure_still_sends :
    (processSendReply "m-1" (fun _ => none) (fun _ _ => none) samplePayload
        newStopPolicy 0).loggedMarshalError = true ∧
    (processSendReply "m-1" (fun _ => none) (fun _ _ => none) samplePayload
        newStopPolicy 0).sendReplyCalls = [("m-1", "")] := by
  constructor <;> rfl

/-- C2 counterexample: marshalling succeeds and the transport SendReply
succeeds, yet no RecordSuccess event is issued and the stop policy is left
untouched. -/
theorem processSendReply_success_records_nothing :
    ((processSendReply "m-2" (fun pd => some pd.raw) (fun _ _ => none) samplePayload
        newStopPolicy 0).stopPolicyEvents.contains StopPolicyEvent.recordSuccess) = false ∧
    (processSendReply "m-2" (fun pd => some pd.raw) (fun _ _ => none) samplePayload
        newStopPolicy 0).policy = newStopPolicy := by
  constructor <;> rfl

/-- C2 (amended): when marshalling succeeds, a transport error makes
processSendReply record a failure into the stop policy (via
HandleAwsError), while a transport success leaves the stop policy
untouched: no RecordSuccess is issued. -/
theorem processSendReply_stopPolicy_updates (messageID : String)
    (jsonMarshal : SendReplyPayload → Option String)
    (sendReply : String → String → Option String)
    (payloadDoc : SendReplyPayload) (p : StopPolicy) (now : Nat) (payload : String)
    (hm : jsonMarshal payloadDoc = some payload) :
    (processSendReply messageID jsonMarshal sendReply payloadDoc p now).policy
      = (if (sendReply messageID payload).isSome then p.RecordFailure now else p) ∧
    (processSendReply messageID jsonMarshal sendReply payloadDoc p now).stopPolicyEvents
      = (if (sendReply messageID payload).isSome then [StopPolicyEvent.recordFailure]
         else []) := by
  simp [processSendReply, hm, HandleAwsError]

/-- C2 witness: a concrete transport error records a failure. -/
theorem processSendReply_stopPolicy_updates_witness :
    (processSendReply "m-3" (fun pd => some pd.raw) (fun _ _ => some "boom")
        samplePayload newStopPolicy 5).policy = newStopPolicy.RecordFailure 5 := by
  have h := processSendReply_stopPolicy_updates "m-3" (fun pd => some pd.raw)
    (fun _ _ => some "boom") samplePayload newStopPolicy 5 samplePayload.raw rfl
  simpa using h.1

/-- C3: the processor stop policy is built with threshold exactly 10 and
the 15 minute window; after 9 consecutive failures it is still healthy and
a RecordSuccess keeps it healthy, while the 10th consecutive failure at
instant t makes IsHealthy false exactly until the window has elapsed, that
is, IsHealthy at instant now equals the test t + window ≤ now. -/
theorem stopPolicy_threshold_behavior (ts : List Nat) (t now m : Nat)
    (h9 : ts.length = 9) :
    newStopPolicy.threshold = 10 ∧
    stopPolicyWindowMillis = 15 * millisPerMinute ∧
    (ts.foldl StopPolicy.RecordFailure newStopPolicy).IsHealthy m = true ∧
    ((ts.foldl StopPolicy.RecordFailure newStopPolicy).RecordFailure t).IsHealthy now
      = decide (t + stopPolicyWindowMillis ≤ now) ∧
    ((ts.foldl StopPolicy.RecordFailure newStopPolicy).RecordSuccess).IsHealthy m
      = true := by
  have h09 : ts.foldl StopPolicy.RecordFailure newStopPolicy
      = { newStopPolicy with errorCount := 9 } := by
    have h := foldl_recordFailure_below ts newStopPolicy rfl
      (by rw [h9]; decide)
    rw [h, h9]
    rfl
  refine ⟨rfl, rfl, ?_, ?_, ?_⟩
  · rw [h09]
    rfl
  · rw [h09]
    by_cases h : t + stopPolicyWindowMillis ≤ now <;>
      simp [StopPolicy.RecordFailure, StopPolicy.expireWindow, StopPolicy.IsHealthy,
        newStopPolicy, NewStopPolicy, stopPolicyErrorThreshold, h]
  · rw [h09]
    rfl

/-- C3 witness: nine failures at instant 0, the tenth at instant 0,
health checked at instant 0. -/
theorem stopPolicy_threshold_behavior_witness :
    (List.replicate 9 0).length = 9 ∧
    (newStopPolicy.threshold = 10 ∧
      stopPolicyWindowMillis = 15 * millisPerMinute ∧
      ((List.replicate 9 0).foldl StopPolicy.RecordFailure newStopPolicy).IsHealthy 0
        = true ∧
      (((List.replicate 9 0).foldl StopPolicy.RecordFailure
          newStopPolicy).RecordFailure 0).IsHealthy 0
        = decide (0 + stopPolicyWindowMillis ≤ 0) ∧
      (((List.replicate 9 0).foldl StopPolicy.RecordFailure
          newStopPolicy).RecordSuccess).IsHealthy 0 = true) :=
  ⟨by decide, stopPolicy_threshold_behavior (List.replicate 9 0) 0 0 0 (by decide)⟩

/-- C4: NewProcessor declines to construct the processor exactly when the
host instance ID is the empty string; the identity-lookup error value,
quantified here over every possibility including non-nil ones, plays no
part in the decision. -/
theorem newProcessor_none_iff_empty_instanceID (instanceID : String)
    (instanceIDErr : Option String) (config : SsmagentConfig) :
    (NewProcessor instanceID instanceIDErr config).isNone = (instanceID == "") ∧
    (NewProcessor instanceID instanceIDErr config).isSome = !(instanceID == "") := by
  by_cases h : instanceID = "" <;> simp [NewProcessor, h]

/-- C5: NewProcessor builds exactly the two worker pools, the
command-execution pool sized by the configured CommandWorkersLimit and the
cancellation pool sized by the constant CancelWorkersLimit, which is 3
independent of the configuration. -/
theorem newProcessor_pool_sizes (instanceID : String) (instanceIDErr : Option String)
    (config : SsmagentConfig) (h : instanceID ≠ "") :
    Option.map (fun p => (p.sendCommandPool.maxWorkers, p.cancelCommandPool.maxWorkers))
        (NewProcessor instanceID instanceIDErr config)
      = some (config.mds.commandWorkersLimit, CancelWorkersLimit) ∧
    CancelWorkersLimit = 3 := by
  refine ⟨?_, rfl⟩
  simp [NewProcessor, h, NewPool]

/-- C5 witness: a concrete construction with a configured command worker
limit of 5 yields pools of sizes 5 and 3. -/
theorem newProcessor_pool_sizes_witness :
    Option.map (fun p => (p.sendCommandPool.maxWorkers, p.cancelCommandPool.maxWorkers))
        (NewProcessor "i-1234567890abcdef0" none sampleConfig)
      = some (sampleConfig.mds.commandWorkersLimit, CancelWorkersLimit) ∧
    CancelWorkersLimit = 3 :=
  newProcessor_pool_sizes "i-1234567890abcdef0" none sampleConfig (by decide)

/-- A graceful pool shutdown never takes longer than its timeout, and
every task it abandons had remaining time beyond the timeout. -/
theorem shutdownGracefully_bounded (running : List Nat) (timeout : Nat) :
    (ShutdownGracefully running timeout).1 ≤ timeout ∧
    ((ShutdownGracefully running timeout).2.all
        (fun d => decide (timeout < d))) = true := by
  unfold ShutdownGracefully
  by_cases h : running.foldl max 0 ≤ timeout
  · simp [h]
  · refine ⟨by simp [h], ?_⟩
    simp only [h, if_neg, ite_false]
    rw [List.all_eq_true]
    intro d hd
    exact (List.mem_filter.mp hd).2

/-- C6: the hard-stop deadline is the fixed constant of 4 seconds
(4000 ms), and Stop returns at or before that deadline for every
population of running tasks in the two pools, abandoning exactly the
tasks whose remaining time exceeds the deadline. -/
theorem stop_bounded_by_hardStopTimeout (sendRunning cancelRunning : List Nat) :
    hardStopTimeout = 4 * millisPerSecond ∧
    hardStopTimeout = 4000 ∧
    (Stop sendRunning cancelRunning).1 ≤ hardStopTimeout ∧
    ((Stop sendRunning cancelRunning).2.all
        (fun d => decide (hardStopTimeout < d))) = true := by
  have hs := shutdownGracefully_bounded sendRunning hardStopTimeout
  have hc := shutdownGracefully_bounded cancelRunning hardStopTimeout
  refine ⟨rfl, rfl, ?_, ?_⟩
  · exact max_le hs.1 hc.1
  · show (((ShutdownGracefully sendRunning hardStopTimeout).2
        ++ (ShutdownGracefully cancelRunning hardStopTimeout).2).all
          (fun d => decide (hardStopTimeout < d))) = true
    rw [List.all_append, hs.2, hc.2]
    rfl

/-- C7: one stop policy value, scoped to the MessageProcessor name, is
captured by both reply closures (sendResponse and sendDocLevelResponse)
and stored in the processor field that gates polling: all three are the
single value built by newStopPolicy. -/
theorem stopPolicy_shared_across_reply_paths (instanceID : String)
    (instanceIDErr : Option String) (config : SsmagentConfig)
    (h : instanceID ≠ "") :
    stopPolicyCaptures (NewProcessor instanceID instanceIDErr config)
      = some (newStopPolicy, newStopPolicy, newStopPolicy) ∧
    newStopPolicy.name = name ∧
    name = "MessageProcessor" := by
  refine ⟨?_, rfl, rfl⟩
  simp [NewProcessor, stopPolicyCaptures, h]

/-- C7 witness: a concrete construction shares one stop policy across
both reply paths and the polling gate. -/
theorem stopPolicy_shared_across_reply_paths_witness :
    stopPolicyCaptures (NewProcessor "i-1234567890abcdef1" none sampleConfig)
      = some (newStopPolicy, newStopPolicy, newStopPolicy) ∧
    newStopPolicy.name = name ∧
    name = "MessageProcessor" :=
  stopPolicy_shared_across_reply_paths "i-1234567890abcdef1" none sampleConfig
    (by decide)

/-- C8: the supervisor resume interval is the fixed constant of 15
minutes, and a dead polling thread is running again at any supervision
instant once that interval has elapsed, so an abnormal termination never
stops polling permanently. -/
theorem poller_resumes_within_bound (since now : Nat)
    (h : since + pollMessageFrequencyMinutes ≤ now) :
    pollMessageFrequencyMinutes = 15 ∧
    superviseStep (PollerStatus.dead since) now = PollerStatus.running := by
  refine ⟨rfl, ?_⟩
  simp [superviseStep, h]

/-- C8 witness: a poller dead since minute 0 is running again at minute
15. -/
theorem poller_resumes_within_bound_witness :
    0 + pollMessageFrequencyMinutes ≤ 15 ∧
    (pollMessageFrequencyMinutes = 15 ∧
      superviseStep (PollerStatus.dead 0) 15 = PollerStatus.running) :=
  ⟨by decide, poller_resumes_within_bound 0 15 (by decide)⟩

/-- C9 counterexample: a configuration may set StopTimeoutMillis to
900000, making the MDS connection timeout equal to, not strictly less
than, the 15 minute poll resume cadence; newMdsService places no
constraint on the configured value. -/
theorem mdsTimeout_not_always_lt_cadence :
    decide ((newMdsService cex9Config).connectionTimeoutMillis
        < pollMessageFrequencyMillis) = false := by
  decide

/-- C9 (amended): the MDS connection timeout equals StopTimeoutMillis
milliseconds, hence it is strictly below the 15 minute (900000 ms) resume
cadence precisely for configurations that set StopTimeoutMillis below
900000; the source notes this as a requirement on the configuration but
does not enforce it. -/
theorem mdsTimeout_lt_cadence_iff (config : SsmagentConfig)
    (h : config.mds.stopTimeoutMillis < 900000) :
    (newMdsService config).connectionTimeoutMillis < pollMessageFrequencyMillis ∧
    pollMessageFrequencyMillis = 900000 :=
  ⟨h, rfl⟩

/-- C9 witness: the sample configuration's 20 second timeout is below the
cadence. -/
theorem mdsTimeout_lt_cadence_iff_witness :
    sampleConfig.mds.stopTimeoutMillis < 900000 ∧
    ((newMdsService sampleConfig).connectionTimeoutMillis < pollMessageFrequencyMillis ∧
      pollMessageFrequencyMillis = 900000) :=
  ⟨by decide, mdsTimeout_lt_cadence_iff sampleConfig (by decide)⟩

/-- C10: the two topic markers are non-empty, distinct, and neither is a
prefix of the other, hence no topic is ever classified as both a send
command and a cancel command. -/
theorem topicClassification_unambiguous :
    0 < SendCommandTopicPrefix.length ∧
    0 < CancelCommandTopicPrefix.length ∧
    ( SendCommandTopicPrefix == CancelCommandTopicPrefix) = false ∧
    List.isPrefixOf SendCommandTopicPrefix.data CancelCommandTopicPrefix.data
      = false ∧
    List.isPrefixOf CancelCommandTopicPrefix.data SendCommandTopicPrefix.data
      = false ∧
    ∀ topic : String,
      (isSendCommandTopic topic && isCancelCommandTopic topic) = false := by
  refine ⟨by decide, by decide, by decide, by decide, by decide, ?_⟩
  intro topic
  cases h1 : isSendCommandTopic topic with
  | false => rfl
  | true =>
    cases h2 : isCancelCommandTopic topic with
    | false => rfl
    | true =>
      exfalso
      unfold isSendCommandTopic at h1
      unfold isCancelCommandTopic at h2
      have p1 : SendCommandTopicPrefix.data <+: topic.data :=
        List.isPrefixOf_iff_prefix.mp h1
      have p2 : CancelCommandTopicPrefix.data <+: topic.data :=
        List.isPrefixOf_iff_prefix.mp h2
      rcases List.prefix_or_prefix_of_prefix p1 p2 with hcase | hcase
      · exact absurd ( List.isPrefixOf_iff_prefix.mpr hcase) (by decide)
      · exact absurd ( List.isPrefixOf_iff_prefix.mpr hcase) (by decide)

end MessageProcessor
